import Mathlib

/-!
# Verification of the sub-Q SAC training loop

A shallow embedding of the sub-reward Soft Actor-Critic trainer
(`src/sac/train.py`, `src/sac/losses.py`, `src/sac/acting.py`,
`src/util/types.py`) together with theorems settling the specification
claims about it.

Conventions:
* Python integers are `ℤ`; Python `//` is `Int.fdiv` and `%` is `Int.fmod`
  (floor-division semantics).
* Exact real arithmetic in the loss / target-update computations is `ℚ`.
* Neural networks, the action distribution, the rng key splitter and the
  per-loss gradient transforms are opaque callables in the source, so they
  are modelled as abstract function-valued inputs; every argument the
  source passes to them is passed in the model, in the same order.
-/

/-- `-(-m // n)` with Python floor division: the pattern the source uses for
ceiling division (train.py lines 154 and 162–164). -/
def pyCeilDiv (m n : ℤ) : ℤ := -((-m).fdiv n)

/-- The configuration fields `train` exports from the frozen config
(train.py lines 115-133), plus `device_count` (train.py line 140, the
product of local devices in use and the process count). -/
structure SacConfig where
  num_timesteps : ℤ
  episode_length : ℤ
  action_repeat : ℤ
  num_envs : ℤ
  num_evals : ℤ
  min_replay_size : ℤ
  max_replay_size : ℤ
  grad_updates_per_step : ℤ
  device_count : ℤ
deriving DecidableEq

/-- `env_steps_per_actor_step = action_repeat * num_envs` (train.py 152). -/
def env_steps_per_actor_step (cfg : SacConfig) : ℤ :=
  cfg.action_repeat * cfg.num_envs

/-- `num_prefill_actor_steps = -(-min_replay_size // num_envs)` (train.py 154). -/
def num_prefill_actor_steps (cfg : SacConfig) : ℤ :=
  pyCeilDiv cfg.min_replay_size cfg.num_envs

/-- `num_prefill_env_steps = num_prefill_actor_steps * env_steps_per_actor_step`
(train.py 155). -/
def num_prefill_env_steps (cfg : SacConfig) : ℤ :=
  num_prefill_actor_steps cfg * env_steps_per_actor_step cfg

/-- `num_evals_after_init = max(num_evals - 1, 1)` (train.py 157). -/
def num_evals_after_init (cfg : SacConfig) : ℤ :=
  max (cfg.num_evals - 1) 1

/-- `num_training_steps_per_epoch` (train.py 162-164): the length of the scan
inside `training_epoch` (train.py 369-371). -/
def num_training_steps_per_epoch (cfg : SacConfig) : ℤ :=
  pyCeilDiv (cfg.num_timesteps - num_prefill_env_steps cfg)
    (num_evals_after_init cfg * env_steps_per_actor_step cfg)

/-- The fatal startup failures of `train`, in source order: the `ValueError`
of train.py 144-146, the assert of train.py 156, and the assert of
train.py 166.  All fire before the training state (train.py 404) or the
replay-buffer state (train.py 426) is allocated. -/
inductive StartupError where
  | minReplayGeNumTimesteps : StartupError
  | prefillExceedsBudget : StartupError
  | numEnvsNotDivisible : StartupError
deriving DecidableEq

/-- The startup validation performed by `train` before any state allocation,
with the three checks in their source order (train.py 144, 156, 166). -/
def startupChecks (cfg : SacConfig) : Except StartupError Unit :=
  if cfg.min_replay_size ≥ cfg.num_timesteps then
    Except.error StartupError.minReplayGeNumTimesteps
  else if ¬ (cfg.num_timesteps - num_prefill_env_steps cfg ≥ 0) then
    Except.error StartupError.prefillExceedsBudget
  else if ¬ (cfg.num_envs.fmod cfg.device_count = 0) then
    Except.error StartupError.numEnvsNotDivisible
  else Except.ok ()

/-- Per-device replay capacity `max_replay_size // device_count`
(train.py 204-205). -/
def bufferCapacityPerDevice (cfg : SacConfig) : ℤ :=
  cfg.max_replay_size.fdiv cfg.device_count

/-- Environments simulated on one device: `num_envs` split across processes
(train.py 420) and then across local devices (train.py 421-422). -/
def num_envs_per_device (cfg : SacConfig) : ℤ :=
  cfg.num_envs.fdiv cfg.device_count

/-- Modelled from the spec: the replay-buffer implementation
(`brax.training.replay_buffers.UniformSamplingQueue`) is not under `src/`;
spec §4.1 gives its occupancy contract
`current_size = min(current_size + insert_size, capacity)`. -/
def bufferInsert (capacity size batch : ℤ) : ℤ :=
  min (size + batch) capacity

/-- The per-replica counters the scheduler claims are about.  Replicas stay
identical (train.py 494-496), so one copy is tracked; `buffer_size` is the
occupancy of this replica's buffer and `actor_steps` counts `actor_step`
calls. -/
structure RunState where
  gradient_steps : ℤ
  env_steps : ℤ
  actor_steps : ℕ
  buffer_size : ℤ
  epochs_run : ℕ
deriving DecidableEq

def initRunState : RunState :=
  { gradient_steps := 0, env_steps := 0, actor_steps := 0, buffer_size := 0, epochs_run := 0 }

/-- One iteration of the body `f` of `prefill_replay_buffer` (train.py
339-349): one `get_experience` — an `actor_step` plus buffer insert
(train.py 297, 305) — and `env_steps += env_steps_per_actor_step`
(train.py 346-348).  No gradient update is performed. -/
def prefillIter (cfg : SacConfig) (s : RunState) : RunState :=
  { s with
    env_steps := s.env_steps + env_steps_per_actor_step cfg
    actor_steps := s.actor_steps + 1
    buffer_size := bufferInsert (bufferCapacityPerDevice cfg) s.buffer_size
      (num_envs_per_device cfg) }

/-- `prefill_replay_buffer` (train.py 334-353): a scan of `f` with
`length=num_prefill_actor_steps`. -/
def prefill_replay_buffer (cfg : SacConfig) (s : RunState) : RunState :=
  (prefillIter cfg)^[(num_prefill_actor_steps cfg).toNat] s

/-- One `training_step` (train.py 308-332): one `get_experience` with buffer
insert, `env_steps += env_steps_per_actor_step` (train.py 316-318), then a
scan of `sgd_step` over `grad_updates_per_step` minibatches (train.py
320-328), each incrementing the gradient-step counter by one
(train.py 283). -/
def trainingStepCounters (cfg : SacConfig) (s : RunState) : RunState :=
  { s with
    env_steps := s.env_steps + env_steps_per_actor_step cfg
    actor_steps := s.actor_steps + 1
    buffer_size := bufferInsert (bufferCapacityPerDevice cfg) s.buffer_size
      (num_envs_per_device cfg)
    gradient_steps := s.gradient_steps + cfg.grad_updates_per_step }

/-- One `training_epoch` (train.py 358-373): a scan of `training_step` with
`length=num_training_steps_per_epoch`. -/
def trainingEpochCounters (cfg : SacConfig) (s : RunState) : RunState :=
  { (trainingStepCounters cfg)^[(num_training_steps_per_epoch cfg).toNat] s with
    epochs_run := s.epochs_run + 1 }

/-- The run after startup: prefill (train.py 452-453) followed by the epoch
loop `for _ in range(num_evals_after_init)` (train.py 461-486). -/
def trainRunCounters (cfg : SacConfig) : RunState :=
  (trainingEpochCounters cfg)^[(num_evals_after_init cfg).toNat]
    (prefill_replay_buffer cfg initRunState)

/-- The `TRAIN` values of config/defaults.py, run on a single replica. -/
def defaultsCfg : SacConfig :=
  { num_timesteps := 50000000
    episode_length := 1000
    action_repeat := 1
    num_envs := 32
    num_evals := 10
    min_replay_size := 8192
    max_replay_size := 1048576
    grad_updates_per_step := 1
    device_count := 1 }

/-- A small valid configuration used to instantiate scheduler theorems. -/
def smallCfg : SacConfig :=
  { num_timesteps := 100
    episode_length := 10
    action_repeat := 1
    num_envs := 4
    num_evals := 2
    min_replay_size := 10
    max_replay_size := 64
    grad_updates_per_step := 1
    device_count := 1 }

/-- An invalid configuration: `min_replay_size >= num_timesteps`. -/
def badBudgetCfg : SacConfig :=
  { defaultsCfg with num_timesteps := 1000 }

/-- The opaque capabilities consumed by `make_losses` (losses.py 36-38):
`q_network.apply` returns one value per ensemble member (the axis the losses
take `jnp.min` over); the other fields are `policy_network.apply`,
`parametric_action_distribution.sample_no_postprocessing`, `.log_prob` and
`.postprocess`.  Argument order follows the source call sites. -/
structure SacNets where
  qApply : ℚ → ℚ → ℚ → ℚ → List ℚ
  policyApply : ℚ → ℚ → ℚ → ℚ
  sample : ℚ → ℚ → ℚ
  logProb : ℚ → ℚ → ℚ
  postprocess : ℚ → ℚ

/-- One minibatch row of `Transition` (util/types.py 8-16) as the losses read
it; `truncation` is `transitions.extras['state_extras']['truncation']`
(losses.py 63).  The per-key reward vector handed to `_critic_loss` as its
separate `reward` argument is kept separate, as in the source. -/
structure TransitionRow where
  observation : ℚ
  action : ℚ
  discount : ℚ
  next_observation : ℚ
  truncation : ℚ
deriving DecidableEq

/-- `jnp.min(v, axis=-1)` over the ensemble axis. -/
def listMin : List ℚ → ℚ
  | [] => 0
  | x :: xs => xs.foldl min x

/-- `jnp.mean` of a flat vector. -/
def listMean (l : List ℚ) : ℚ := l.sum / l.length

/-- The masked TD-error row of `_critic_loss` (losses.py 45-64) for one
transition and its per-key reward entry: the ensemble vector
`(q_old_action - target_q) * (1 - truncation)`. -/
def criticQError (nets : SacNets)
    (q_params policy_params normalizer_params target_q_params alpha
      reward_scaling discounting : ℚ)
    (t : TransitionRow) (reward : ℚ) (key : ℚ) : List ℚ :=
  let q_old_action := nets.qApply normalizer_params q_params t.observation t.action
  let next_dist_params := nets.policyApply normalizer_params policy_params t.next_observation
  let next_action0 := nets.sample next_dist_params key
  let next_log_prob := nets.logProb next_dist_params next_action0
  let next_action := nets.postprocess next_action0
  let next_q := nets.qApply normalizer_params target_q_params t.next_observation next_action
  let next_v := listMin next_q - alpha * next_log_prob
  let target_q := reward * reward_scaling + t.discount * discounting * next_v
  q_old_action.map (fun q => (q - target_q) * (1 - t.truncation))

/-- `_critic_loss` (losses.py 40-67): `0.5 * jnp.mean(jnp.square(q_error))`
over the batch × ensemble error matrix, with the truncation mask already
applied inside `criticQError`. -/
def _critic_loss (nets : SacNets)
    (q_params policy_params normalizer_params target_q_params alpha
      reward_scaling discounting : ℚ)
    (transitions : List TransitionRow) (reward : List ℚ) (key : ℚ) : ℚ :=
  let q_error := (transitions.zip reward).map (fun p =>
    criticQError nets q_params policy_params normalizer_params target_q_params
      alpha reward_scaling discounting p.1 p.2 key)
  (1/2) * listMean (q_error.flatten.map (fun e => e * e))

/-- The additive contribution of one transition to the numerator of the
mean-squared TD error: the sum of its squared masked ensemble errors. -/
def criticRowContribution (nets : SacNets)
    (q_params policy_params normalizer_params target_q_params alpha
      reward_scaling discounting : ℚ)
    (t : TransitionRow) (reward : ℚ) (key : ℚ) : ℚ :=
  ((criticQError nets q_params policy_params normalizer_params target_q_params
      alpha reward_scaling discounting t reward key).map (fun e => e * e)).sum

/-- Concrete nets used to instantiate loss theorems: a one-member Q ensemble
that always returns 0 and a trivial action distribution. -/
def zeroNets : SacNets :=
  { qApply := fun _ _ _ _ => [0]
    policyApply := fun _ _ _ => 0
    sample := fun _ _ => 0
    logProb := fun _ _ => 0
    postprocess := fun a => a }

/-- A transition row with truncation flag set. -/
def truncatedRow : TransitionRow :=
  { observation := 0, action := 0, discount := 0, next_observation := 0, truncation := 1 }

/-- The same transition row with the truncation flag cleared. -/
def untruncatedRow : TransitionRow :=
  { truncatedRow with truncation := 0 }

/-- The ravel-sum of `min_sub_q` (losses.py 133-140): for each sub-reward key
a batch-length vector of min-over-ensemble sub-Q values is formed
(losses.py 134-139), and `jnp.sum(ravel_pytree(...))` (losses.py 140)
totals those vectors over keys and batch entries, producing one scalar. -/
def ravelMinSubQ (nets : SacNets) (policy_params normalizer_params : ℚ)
    (sub_q_params : List (String × ℚ)) (transitions : List TransitionRow)
    (key : ℚ) : ℚ :=
  (sub_q_params.map (fun kq =>
    (transitions.map (fun t =>
      listMin (nets.qApply normalizer_params kq.2 t.observation
        (nets.postprocess (nets.sample
          (nets.policyApply normalizer_params policy_params t.observation) key))))).sum)).sum

/-- `policy_loss` (losses.py 123-141), the shared-policy loss.  The argument
list mirrors the source signature — shared `policy_params`,
`normalizer_params`, the per-key `sub_q_params` mapping, `alpha`, the
minibatch and the rng key; no sub-policy parameters are among them.  The
scalar ravel-sum of sub-Q mins is broadcast-subtracted from each
`alpha * log_prob` entry and the result is averaged (losses.py 140-141). -/
def policy_loss (nets : SacNets) (policy_params normalizer_params : ℚ)
    (sub_q_params : List (String × ℚ)) (alpha : ℚ)
    (transitions : List TransitionRow) (key : ℚ) : ℚ :=
  listMean (transitions.map (fun t =>
    alpha * nets.logProb (nets.policyApply normalizer_params policy_params t.observation)
        (nets.sample (nets.policyApply normalizer_params policy_params t.observation) key)
      - ravelMinSubQ nets policy_params normalizer_params sub_q_params transitions key))

/-- Written from the spec (§4.2, shared policy loss): per transition, sample
an action from the shared policy, evaluate every sub-Q network at that
action, take the min-over-ensemble value for each key, sum these values
across keys with no per-key weight, and average
`alpha * log_prob - summed_value` over the batch. -/
def sharedPolicyLossSpec (nets : SacNets) (policy_params normalizer_params : ℚ)
    (sub_q_params : List (String × ℚ)) (alpha : ℚ)
    (transitions : List TransitionRow) (key : ℚ) : ℚ :=
  listMean (transitions.map (fun t =>
    alpha * nets.logProb (nets.policyApply normalizer_params policy_params t.observation)
        (nets.sample (nets.policyApply normalizer_params policy_params t.observation) key)
      - (sub_q_params.map (fun kq =>
          listMin (nets.qApply normalizer_params kq.2 t.observation
            (nets.postprocess (nets.sample
              (nets.policyApply normalizer_params policy_params t.observation) key))))).sum))

/-- The per-sample variant that would apply a per-key reward-decomposition
weight `w`; stated only for contrast with the unweighted source loss. -/
def sharedPolicyLossWeighted (w : String → ℚ) (nets : SacNets)
    (policy_params normalizer_params : ℚ) (sub_q_params : List (String × ℚ))
    (alpha : ℚ) (transitions : List TransitionRow) (key : ℚ) : ℚ :=
  listMean (transitions.map (fun t =>
    alpha * nets.logProb (nets.policyApply normalizer_params policy_params t.observation)
        (nets.sample (nets.policyApply normalizer_params policy_params t.observation) key)
      - (sub_q_params.map (fun kq =>
          w kq.1 * listMin (nets.qApply normalizer_params kq.2 t.observation
            (nets.postprocess (nets.sample
              (nets.policyApply normalizer_params policy_params t.observation) key))))).sum))

/-- Nets whose one-member Q ensemble returns the Q-parameters themselves,
used to make sub-Q evaluations observable in concrete instances. -/
def qValNets : SacNets :=
  { qApply := fun _ q_params _ _ => [q_params]
    policyApply := fun _ _ _ => 0
    sample := fun _ _ => 0
    logProb := fun _ _ => 0
    postprocess := fun a => a }

/-- A per-key parameter tree (sub-policy, sub-Q, sub-target-Q mappings keyed
by sub-reward name), with numeric leaves. -/
abbrev SubTree := List (String × List ℚ)

/-- The Polyak leaf update `x * (1 - tau) + y * tau` (train.py 264). -/
def polyakLeaf (tau x y : ℚ) : ℚ := x * (1 - tau) + y * tau

/-- `jax.tree_map(lambda x, y: x * (1 - tau) + y * tau, target, new)` over a
per-key tree (train.py 264-265). -/
def treePolyak (tau : ℚ) (target newQ : SubTree) : SubTree :=
  List.zipWith (fun t n => (t.1, List.zipWith (polyakLeaf tau) t.2 n.2)) target newQ

/-- The training-state fields `sgd_step` reads and constructs
(train.py 226-287).  util/types.py 19-35 declares two further required
fields, `sub_alpha_params` and `sub_alpha_optimizer_state`, that no
constructor call in train.py supplies; the constructor-argument model below
covers that mismatch. -/
structure TrainingStateM where
  policy_params : ℚ
  policy_optimizer_state : ℚ
  sub_policy_params : SubTree
  sub_policy_optimizer_state : ℚ
  sub_q_params : SubTree
  sub_q_optimizer_state : ℚ
  sub_target_q_params : SubTree
  gradient_steps : ℤ
  env_steps : ℤ
  alpha_params : ℚ
  alpha_optimizer_state : ℚ
  normalizer_params : ℚ

/-- The opaque callables `sgd_step` closes over: the four
`gradients.gradient_update_fn` closures (train.py 214-221), each returning
`(loss, new_params, new_optimizer_state)` for exactly the arguments the
source passes (in source order, with the optimizer state last); `jnp.exp`;
and `jax.random.split(key, 5)` (train.py 228). -/
structure SgdUpdates where
  split5 : ℚ → ℚ × ℚ × ℚ × ℚ × ℚ
  expFn : ℚ → ℚ
  alpha_update : ℚ → ℚ → ℚ → ℚ → ℚ → ℚ → ℚ × ℚ × ℚ
  sub_q_update : SubTree → SubTree → ℚ → SubTree → ℚ → ℚ → ℚ → ℚ → ℚ × SubTree × ℚ
  sub_policy_update : SubTree → ℚ → SubTree → ℚ → ℚ → ℚ → ℚ → ℚ × SubTree × ℚ
  policy_update : ℚ → ℚ → SubTree → ℚ → ℚ → ℚ → ℚ → ℚ × ℚ × ℚ

/-- The metric scalars `sgd_step` returns (train.py 267-273). -/
structure SgdMetrics where
  alpha_loss : ℚ
  sub_q_loss : ℚ
  sub_policy_loss : ℚ
  policy_loss : ℚ
  alpha : ℚ

/-- `sgd_step` (train.py 223-288), transcribed read for read.  Every
`training_state.*` access is on the carried pre-step state: `alpha` is
`exp` of the old `alpha_params` (train.py 237), and the sub-policy update
(train.py 250) and the shared-policy update (train.py 258) both receive
`training_state.sub_q_params` — the previous step's sub-Q parameters — while
the freshly updated `sub_q_params` of train.py 238 feed only the Polyak
target update (train.py 264-265) and the stored new state (train.py 276). -/
def sgd_step (u : SgdUpdates) (tau : ℚ) (carry : TrainingStateM × ℚ)
    (transitions : ℚ) : (TrainingStateM × ℚ) × SgdMetrics :=
  let training_state := carry.1
  let keys := u.split5 carry.2
  let key := keys.1
  let key_alpha := keys.2.1
  let key_sub_q := keys.2.2.1
  let key_sub_policy := keys.2.2.2.1
  let key_policy := keys.2.2.2.2
  let aRes := u.alpha_update training_state.alpha_params
    training_state.policy_params training_state.normalizer_params transitions
    key_alpha training_state.alpha_optimizer_state
  let alpha := u.expFn training_state.alpha_params
  let qRes := u.sub_q_update training_state.sub_q_params
    training_state.sub_policy_params training_state.normalizer_params
    training_state.sub_target_q_params alpha transitions key_sub_q
    training_state.sub_q_optimizer_state
  let spRes := u.sub_policy_update training_state.sub_policy_params
    training_state.normalizer_params training_state.sub_q_params alpha
    transitions key_sub_policy training_state.sub_policy_optimizer_state
  let pRes := u.policy_update training_state.policy_params
    training_state.normalizer_params training_state.sub_q_params alpha
    transitions key_policy training_state.policy_optimizer_state
  let new_sub_target_q_params :=
    treePolyak tau training_state.sub_target_q_params qRes.2.1
  let metrics : SgdMetrics :=
    { alpha_loss := aRes.1
      sub_q_loss := qRes.1
      sub_policy_loss := spRes.1
      policy_loss := pRes.1
      alpha := u.expFn aRes.2.1 }
  let new_training_state : TrainingStateM :=
    { sub_q_params := qRes.2.1
      sub_q_optimizer_state := qRes.2.2
      sub_policy_params := spRes.2.1
      sub_policy_optimizer_state := spRes.2.2
      policy_params := pRes.2.1
      policy_optimizer_state := pRes.2.2
      sub_target_q_params := new_sub_target_q_params
      gradient_steps := training_state.gradient_steps + 1
      env_steps := training_state.env_steps
      alpha_optimizer_state := aRes.2.2
      alpha_params := aRes.2.1
      normalizer_params := training_state.normalizer_params }
  ((new_training_state, key), metrics)

/-- Leaf total of a per-key tree. -/
def subTreeTotal (t : SubTree) : ℚ := (t.map (fun kv => kv.2.sum)).sum

/-- Concrete update closures for the dataflow instance: the sub-Q update
bumps every sub-Q leaf to 1, and the shared-policy update returns the leaf
total of the sub-Q tree it was handed as its new policy parameters. -/
def probeUpdates : SgdUpdates :=
  { split5 := fun k => (k, 0, 0, 0, 0)
    expFn := fun _ => 0
    alpha_update := fun a _ _ _ _ o => (0, a, o)
    sub_q_update := fun q _ _ _ _ _ _ o =>
      (0, q.map (fun kv => (kv.1, kv.2.map (fun _ => 1))), o)
    sub_policy_update := fun sp _ _ _ _ _ o => (0, sp, o)
    policy_update := fun _ _ subq _ _ _ o => (0, subTreeTotal subq, o) }

/-- A one-key training state with all-zero leaves. -/
def probeState : TrainingStateM :=
  { policy_params := 0
    policy_optimizer_state := 0
    sub_policy_params := [("k", [0])]
    sub_policy_optimizer_state := 0
    sub_q_params := [("k", [0])]
    sub_q_optimizer_state := 0
    sub_target_q_params := [("k", [0])]
    gradient_steps := 0
    env_steps := 0
    alpha_params := 0
    alpha_optimizer_state := 0
    normalizer_params := 0 }

/-- A Python dict modelled by its lookup semantics: entries listed in write
order, a later write for the same key shadowing an earlier one. -/
abbrev PyDict := List (String × ℚ)

/-- Dict lookup: the latest binding for the key wins. -/
def pyDictGet (d : PyDict) (k : String) : Option ℚ :=
  (d.reverse.find? (fun p => p.1 == k)).map (fun p => p.2)

/-- What one evaluation unroll yields, read from the wrapped evaluation
environment and the wall clock (acting.py 121-131); both are external
collaborators, so they are inputs of the model.  `episodeMetrics` carries
the per-metric `np.mean` over episodes. -/
structure EvalOutcome where
  episodeMetrics : PyDict
  avgEpisodeLength : ℚ
  epochEvalTime : ℚ

/-- The `metrics` dict of acting.py 125-131: the comprehension over
`eval_metrics.episode_metrics` with keys prefixed `eval/episode_`, then the
writes `eval/avg_episode_length`, `eval/epoch_eval_time` and
`eval/sps = steps_per_unroll / epoch_eval_time`. -/
def evalMetricsDict (steps_per_unroll : ℚ) (r : EvalOutcome) : PyDict :=
  (r.episodeMetrics.map (fun p => ("eval/episode_" ++ p.1, p.2)))
    ++ [("eval/avg_episode_length", r.avgEpisodeLength),
        ("eval/epoch_eval_time", r.epochEvalTime),
        ("eval/sps", steps_per_unroll / r.epochEvalTime)]

/-- The mapping `run_evaluation` returns (acting.py 115-139): the dict
literal `{'eval/walltime': walltime, **training_metrics, **metrics}`
(acting.py 133-137), where `walltime` is the accumulated eval wall-time
`eval_walltime + epoch_eval_time` (acting.py 132) and `metrics` is
`evalMetricsDict`. -/
def run_evaluation (steps_per_unroll eval_walltime : ℚ) (r : EvalOutcome)
    (training_metrics : PyDict) : PyDict :=
  [("eval/walltime", eval_walltime + r.epochEvalTime)]
    ++ training_metrics ++ evalMetricsDict steps_per_unroll r

/-- `generate_unroll` (acting.py 55-75): a scan of `actor_step` for
`unroll_length` iterations, collecting one transition per iteration. -/
def generate_unroll {S T : Type} (step : S → S × T) (s0 : S) : ℕ → S × List T
  | 0 => (s0, [])
  | n + 1 =>
    let r := step s0
    let rest := generate_unroll step r.1 n
    (rest.1, r.2 :: rest.2)

/-- The unroll length the Evaluator requests: `episode_length //
action_repeat` (acting.py 110). -/
def eval_unroll_length (episode_length action_repeat : ℕ) : ℕ :=
  episode_length / action_repeat

/-- The eval outcome used in concrete evaluator instances: no episode
metrics, one unit of eval time. -/
def wtOutcome : EvalOutcome :=
  { episodeMetrics := [], avgEpisodeLength := 0, epochEvalTime := 1 }

/-- The fields of the `TrainingState` flax dataclass (util/types.py 19-35),
in declaration order.  None has a default value, so the generated
constructor requires every one of them. -/
inductive TSField where
  | policy_params : TSField
  | policy_optimizer_state : TSField
  | sub_policy_params : TSField
  | sub_policy_optimizer_state : TSField
  | sub_q_params : TSField
  | sub_q_optimizer_state : TSField
  | sub_target_q_params : TSField
  | gradient_steps : TSField
  | env_steps : TSField
  | alpha_params : TSField
  | alpha_optimizer_state : TSField
  | sub_alpha_params : TSField
  | sub_alpha_optimizer_state : TSField
  | normalizer_params : TSField
deriving DecidableEq

/-- Every declared `TrainingState` field (util/types.py 19-35); all are
required. -/
def trainingStateFields : List TSField :=
  [TSField.policy_params, TSField.policy_optimizer_state,
   TSField.sub_policy_params, TSField.sub_policy_optimizer_state,
   TSField.sub_q_params, TSField.sub_q_optimizer_state,
   TSField.sub_target_q_params, TSField.gradient_steps, TSField.env_steps,
   TSField.alpha_params, TSField.alpha_optimizer_state,
   TSField.sub_alpha_params, TSField.sub_alpha_optimizer_state,
   TSField.normalizer_params]

/-- A dataclass construction binds iff every required field is supplied as a
keyword argument; otherwise CPython raises a missing-argument `TypeError`. -/
def dataclassCallOk (supplied : List TSField) : Bool :=
  trainingStateFields.all (fun f => supplied.contains f)

/-- The keyword arguments of the `TrainingState(...)` call in
`_init_training_state` (train.py 89-101). -/
def initTrainingStateKwargs : List TSField :=
  [TSField.policy_params, TSField.policy_optimizer_state,
   TSField.sub_policy_params, TSField.sub_policy_optimizer_state,
   TSField.sub_q_params, TSField.sub_q_optimizer_state,
   TSField.sub_target_q_params, TSField.gradient_steps, TSField.env_steps,
   TSField.alpha_optimizer_state, TSField.alpha_params,
   TSField.normalizer_params]

/-- The keyword arguments of the `TrainingState(...)` call in `sgd_step`
(train.py 275-287). -/
def sgdStepTrainingStateKwargs : List TSField :=
  [TSField.sub_q_params, TSField.sub_q_optimizer_state,
   TSField.sub_policy_params, TSField.sub_policy_optimizer_state,
   TSField.policy_params, TSField.policy_optimizer_state,
   TSField.sub_target_q_params, TSField.gradient_steps, TSField.env_steps,
   TSField.alpha_optimizer_state, TSField.alpha_params,
   TSField.normalizer_params]

/-- A Python positional-or-keyword signature: the parameter names in order
and the subset carrying a default value. -/
structure PySignature where
  params : List String
  defaults : List String

/-- Python call binding for `npos` positional arguments plus the given
keyword names: positional arguments may not overflow the parameter list,
every keyword must name a parameter not already bound positionally, and
every parameter left unbound must have a default.  `false` exactly when
CPython raises a `TypeError` for the call. -/
def bindCall (sig : PySignature) (npos : ℕ) (kwargs : List String) : Bool :=
  decide (npos ≤ sig.params.length)
  && kwargs.all (fun k =>
      sig.params.contains k && !((sig.params.take npos).contains k))
  && (sig.params.drop npos).all (fun p =>
      kwargs.contains p || sig.defaults.contains p)

/-- `Evaluator.__init__` (acting.py 82-85): its parameters after `self`;
none has a default. -/
def evaluatorInitSig : PySignature :=
  { params := ["eval_env", "eval_policy_fn", "num_eval_envs",
               "episode_length", "action_repeat", "key"]
    defaults := [] }

/-- `actor_step` (acting.py 30-37): `reward_dict` is required and only
`extra_fields` has a default. -/
def actorStepSig : PySignature :=
  { params := ["env", "env_state", "policy", "key", "reward_dict",
               "extra_fields"]
    defaults := ["extra_fields"] }

/-- The keywords of the `Evaluator(...)` construction in `train`
(train.py 429-437), which also passes two positional arguments. -/
def evaluatorCallKwargs : List String :=
  ["num_eval_envs", "episode_length", "action_repeat", "key", "reward_dict"]

/-- The keywords of the `actor_step(...)` call inside `generate_unroll`
(acting.py 69-70), which also passes four positional arguments. -/
def generateUnrollActorStepKwargs : List String :=
  ["extra_fields"]

lemma pyCeilDiv_eq_neg_ediv (m n : ℤ) (hn : 0 ≤ n) : pyCeilDiv m n = -((-m) / n) := by
  unfold pyCeilDiv
  rw [Int.fdiv_eq_ediv _ hn]

/-- Ceiling property, upper side: `n * ⌈m/n⌉ ≥ m`. -/
lemma le_mul_pyCeilDiv (m n : ℤ) (hn : 0 < n) : m ≤ n * pyCeilDiv m n := by
  rw [pyCeilDiv_eq_neg_ediv m n hn.le]
  have h1 : n * ((-m) / n) + (-m) % n = -m := Int.ediv_add_emod (-m) n
  have h2 : 0 ≤ (-m) % n := Int.emod_nonneg (-m) hn.ne'
  nlinarith [h1, h2]

/-- Ceiling property, lower side: `n * (⌈m/n⌉ - 1) < m`. -/
lemma mul_pyCeilDiv_sub_one_lt (m n : ℤ) (hn : 0 < n) : n * (pyCeilDiv m n - 1) < m := by
  rw [pyCeilDiv_eq_neg_ediv m n hn.le]
  have h1 : n * ((-m) / n) + (-m) % n = -m := Int.ediv_add_emod (-m) n
  have h2 : (-m) % n < n := Int.emod_lt_of_pos (-m) hn
  nlinarith [h1, h2]

lemma pyCeilDiv_nonneg (m n : ℤ) (hn : 0 < n) (hm : 0 ≤ m) : 0 ≤ pyCeilDiv m n := by
  have h := le_mul_pyCeilDiv m n hn
  nlinarith [h]

lemma prefillIter_iterate (cfg : SacConfig) (s : RunState) (n : ℕ) :
    ((prefillIter cfg)^[n] s).gradient_steps = s.gradient_steps
    ∧ ((prefillIter cfg)^[n] s).actor_steps = s.actor_steps + n
    ∧ ((prefillIter cfg)^[n] s).env_steps
        = s.env_steps + n * env_steps_per_actor_step cfg
    ∧ ((prefillIter cfg)^[n] s).epochs_run = s.epochs_run := by
  induction n with
  | zero => simp
  | succ k ih =>
    rw [Function.iterate_succ_apply']
    refine ⟨by simp [prefillIter, ih.1], by simp [prefillIter, ih.2.1]; omega, ?_,
      by simp [prefillIter, ih.2.2.2]⟩
    simp only [prefillIter, ih.2.2.1]
    push_cast
    ring

lemma prefillIter_iterate_buffer (cfg : SacConfig) (s : RunState) (n : ℕ)
    (hb : s.buffer_size ≤ bufferCapacityPerDevice cfg)
    (he : 0 ≤ num_envs_per_device cfg) :
    ((prefillIter cfg)^[n] s).buffer_size
      = min (s.buffer_size + n * num_envs_per_device cfg) (bufferCapacityPerDevice cfg) := by
  induction n with
  | zero => simp [min_eq_left hb]
  | succ k ih =>
    rw [Function.iterate_succ_apply']
    simp only [prefillIter, bufferInsert, ih]
    have h1 : ((k + 1 : ℕ) : ℤ) * num_envs_per_device cfg
        = (k : ℤ) * num_envs_per_device cfg + num_envs_per_device cfg := by push_cast; ring
    rw [h1]
    generalize (k : ℤ) * num_envs_per_device cfg = ke at *
    omega

lemma trainingStepCounters_iterate (cfg : SacConfig) (s : RunState) (n : ℕ) :
    ((trainingStepCounters cfg)^[n] s).gradient_steps
        = s.gradient_steps + n * cfg.grad_updates_per_step
    ∧ ((trainingStepCounters cfg)^[n] s).env_steps
        = s.env_steps + n * env_steps_per_actor_step cfg
    ∧ ((trainingStepCounters cfg)^[n] s).epochs_run = s.epochs_run := by
  induction n with
  | zero => simp
  | succ k ih =>
    rw [Function.iterate_succ_apply']
    refine ⟨?_, ?_, by simp [trainingStepCounters, ih.2.2]⟩
    · simp only [trainingStepCounters, ih.1]
      push_cast
      ring
    · simp only [trainingStepCounters, ih.2.1]
      push_cast
      ring

lemma trainingEpochCounters_iterate (cfg : SacConfig) (s : RunState) (n : ℕ) :
    ((trainingEpochCounters cfg)^[n] s).epochs_run = s.epochs_run + n
    ∧ ((trainingEpochCounters cfg)^[n] s).env_steps
        = s.env_steps + n * ((num_training_steps_per_epoch cfg).toNat
            * env_steps_per_actor_step cfg) := by
  induction n with
  | zero => simp
  | succ k ih =>
    rw [Function.iterate_succ_apply']
    constructor
    · simp only [trainingEpochCounters]
      rw [ih.1]
      omega
    · simp only [trainingEpochCounters]
      rw [(trainingStepCounters_iterate cfg _ _).2.1, ih.2]
      push_cast
      ring

/-- **C2**: the prefill phase executes exactly `ceil(min_replay_size /
num_envs)` actor steps — the source value `num_prefill_actor_steps` is
bracketed by the ceiling characterization and equals 256 under the default
configuration — performs no gradient update (the gradient-step counter is
unchanged over the whole prefill), and afterwards the total replay occupancy
(summed over replicas, train.py 455) is at least `min_replay_size`. -/
theorem C2_prefill_steps_and_occupancy (cfg : SacConfig) (s : RunState)
    (henv : 0 < cfg.num_envs) (hdc : 0 < cfg.device_count)
    (hdvd : cfg.device_count ∣ cfg.num_envs)
    (hmin : 0 ≤ cfg.min_replay_size)
    (hcap : cfg.min_replay_size ≤ cfg.device_count * bufferCapacityPerDevice cfg)
    (hb : s.buffer_size = 0) :
    (prefill_replay_buffer cfg s).actor_steps
        = s.actor_steps + (num_prefill_actor_steps cfg).toNat
    ∧ cfg.min_replay_size ≤ cfg.num_envs * num_prefill_actor_steps cfg
    ∧ cfg.num_envs * (num_prefill_actor_steps cfg - 1) < cfg.min_replay_size
    ∧ num_prefill_actor_steps defaultsCfg = 256
    ∧ (prefill_replay_buffer cfg s).gradient_steps = s.gradient_steps
    ∧ cfg.min_replay_size
        ≤ cfg.device_count * (prefill_replay_buffer cfg s).buffer_size := by
  have hcap0 : 0 ≤ bufferCapacityPerDevice cfg := by nlinarith [hcap, hmin, hdc]
  have he : 0 ≤ num_envs_per_device cfg := by
    unfold num_envs_per_device
    rw [Int.fdiv_eq_ediv _ hdc.le]
    exact Int.ediv_nonneg henv.le hdc.le
  have hde : cfg.device_count * num_envs_per_device cfg = cfg.num_envs := by
    unfold num_envs_per_device
    rw [Int.fdiv_eq_ediv _ hdc.le]
    exact Int.mul_ediv_cancel' hdvd
  have hN : 0 ≤ num_prefill_actor_steps cfg :=
    pyCeilDiv_nonneg cfg.min_replay_size cfg.num_envs henv hmin
  refine ⟨(prefillIter_iterate cfg s _).2.1,
    le_mul_pyCeilDiv cfg.min_replay_size cfg.num_envs henv,
    mul_pyCeilDiv_sub_one_lt cfg.min_replay_size cfg.num_envs henv,
    by decide,
    (prefillIter_iterate cfg s _).1, ?_⟩
  rw [prefill_replay_buffer,
    prefillIter_iterate_buffer cfg s _ (by rw [hb]; exact hcap0) he, hb]
  have hcast : ((num_prefill_actor_steps cfg).toNat : ℤ) = num_prefill_actor_steps cfg :=
    Int.toNat_of_nonneg hN
  rw [mul_min_of_nonneg _ _ hdc.le]
  refine le_min ?_ hcap
  calc cfg.min_replay_size
      ≤ cfg.num_envs * num_prefill_actor_steps cfg :=
        le_mul_pyCeilDiv cfg.min_replay_size cfg.num_envs henv
    _ = cfg.device_count * (0 + (num_prefill_actor_steps cfg).toNat
          * num_envs_per_device cfg) := by rw [hcast]; rw [← hde]; ring

/-- Witness for `C2_prefill_steps_and_occupancy` at the default
configuration, starting from the freshly initialized run state. -/
theorem C2_prefill_witness :
    (prefill_replay_buffer defaultsCfg initRunState).actor_steps
        = initRunState.actor_steps + (num_prefill_actor_steps defaultsCfg).toNat
    ∧ defaultsCfg.min_replay_size
        ≤ defaultsCfg.num_envs * num_prefill_actor_steps defaultsCfg
    ∧ defaultsCfg.num_envs * (num_prefill_actor_steps defaultsCfg - 1)
        < defaultsCfg.min_replay_size
    ∧ num_prefill_actor_steps defaultsCfg = 256
    ∧ (prefill_replay_buffer defaultsCfg initRunState).gradient_steps
        = initRunState.gradient_steps
    ∧ defaultsCfg.min_replay_size
        ≤ defaultsCfg.device_count
            * (prefill_replay_buffer defaultsCfg initRunState).buffer_size :=
  C2_prefill_steps_and_occupancy defaultsCfg initRunState (by decide) (by decide)
    (one_dvd _) (by decide) (by decide) rfl

/-- **C3 counterexample**: under config/defaults.py the run executes
`num_evals_after_init = 9` epochs, while the value precomputed by the ceiling
formula (`num_training_steps_per_epoch`, the per-epoch step count) is 173583;
the claimed equality fails. -/
theorem C3_epoch_count_counterexample :
    (trainRunCounters defaultsCfg).epochs_run
      ≠ (num_training_steps_per_epoch defaultsCfg).toNat := by
  have h1 := (trainingEpochCounters_iterate defaultsCfg
      (prefill_replay_buffer defaultsCfg initRunState)
      (num_evals_after_init defaultsCfg).toNat).1
  have h2 := (prefillIter_iterate defaultsCfg initRunState
      (num_prefill_actor_steps defaultsCfg).toNat).2.2.2
  rw [trainRunCounters, h1, prefill_replay_buffer, h2]
  decide

/-- **C3 (amended)**: the epoch loop executes exactly
`num_evals_after_init = max(num_evals - 1, 1)` epochs; the startup ceiling
value `num_training_steps_per_epoch` is the per-epoch training-step count,
not the epoch count; and the run terminates with the environment-step
counter at least `num_timesteps`. -/
theorem C3_epoch_count_and_termination (cfg : SacConfig)
    (har : 0 < cfg.action_repeat) (henv : 0 < cfg.num_envs)
    (hmin : 0 ≤ cfg.min_replay_size)
    (hT : num_prefill_env_steps cfg ≤ cfg.num_timesteps) :
    (trainRunCounters cfg).epochs_run = (num_evals_after_init cfg).toNat
    ∧ cfg.num_timesteps ≤ (trainRunCounters cfg).env_steps := by
  have heps : 0 < env_steps_per_actor_step cfg := mul_pos har henv
  have hE : (1:ℤ) ≤ num_evals_after_init cfg := le_max_right _ _
  have hEeps : 0 < num_evals_after_init cfg * env_steps_per_actor_step cfg := by positivity
  have hS : 0 ≤ num_training_steps_per_epoch cfg :=
    pyCeilDiv_nonneg _ _ hEeps (by omega)
  have hNpre : 0 ≤ num_prefill_actor_steps cfg :=
    pyCeilDiv_nonneg cfg.min_replay_size cfg.num_envs henv hmin
  have hcastE : ((num_evals_after_init cfg).toNat : ℤ) = num_evals_after_init cfg :=
    Int.toNat_of_nonneg (by omega)
  have hcastS : ((num_training_steps_per_epoch cfg).toNat : ℤ)
      = num_training_steps_per_epoch cfg := Int.toNat_of_nonneg hS
  have hcastN : ((num_prefill_actor_steps cfg).toNat : ℤ) = num_prefill_actor_steps cfg :=
    Int.toNat_of_nonneg hNpre
  have hpe := (prefillIter_iterate cfg initRunState
      (num_prefill_actor_steps cfg).toNat).2.2
  have hepoch := trainingEpochCounters_iterate cfg
      (prefill_replay_buffer cfg initRunState) (num_evals_after_init cfg).toNat
  constructor
  · rw [trainRunCounters, hepoch.1, prefill_replay_buffer, hpe.2]
    simp [initRunState]
  · rw [trainRunCounters, hepoch.2, prefill_replay_buffer, hpe.1]
    have hceil := le_mul_pyCeilDiv (cfg.num_timesteps - num_prefill_env_steps cfg)
        (num_evals_after_init cfg * env_steps_per_actor_step cfg) hEeps
    have hdef : num_training_steps_per_epoch cfg
        = pyCeilDiv (cfg.num_timesteps - num_prefill_env_steps cfg)
            (num_evals_after_init cfg * env_steps_per_actor_step cfg) := rfl
    rw [← hdef] at hceil
    have hpreEq : num_prefill_env_steps cfg
        = num_prefill_actor_steps cfg * env_steps_per_actor_step cfg := rfl
    have hassoc : num_evals_after_init cfg
          * (num_training_steps_per_epoch cfg * env_steps_per_actor_step cfg)
        = num_evals_after_init cfg * env_steps_per_actor_step cfg
            * num_training_steps_per_epoch cfg := by ring
    rw [hcastE, hcastS, hcastN]
    show cfg.num_timesteps ≤ 0 + num_prefill_actor_steps cfg * env_steps_per_actor_step cfg
        + num_evals_after_init cfg
            * (num_training_steps_per_epoch cfg * env_steps_per_actor_step cfg)
    rw [hassoc]
    linarith [hceil, hpreEq.symm.le, hpreEq.le]

/-- Witness for `C3_epoch_count_and_termination` at a small valid
configuration. -/
theorem C3_epoch_count_witness :
    (trainRunCounters smallCfg).epochs_run = (num_evals_after_init smallCfg).toNat
    ∧ smallCfg.num_timesteps ≤ (trainRunCounters smallCfg).env_steps :=
  C3_epoch_count_and_termination smallCfg (by decide) (by decide) (by decide) (by decide)

/-- **C7**: startup fails — with the `ValueError` of train.py 144-146 or the
assertion of train.py 166 — whenever `min_replay_size >= num_timesteps` or
`num_envs` is not evenly divisible by the replica count; these checks precede
every state allocation (train.py 404, 426).  When both conditions are
satisfied (and the prefill budget assertion of train.py 156 holds) startup
validation succeeds. -/
theorem C7_startup_validation (cfg : SacConfig) :
    ((cfg.min_replay_size ≥ cfg.num_timesteps
        ∨ ¬ cfg.num_envs.fmod cfg.device_count = 0) →
      ∃ e, startupChecks cfg = Except.error e)
    ∧ (cfg.min_replay_size < cfg.num_timesteps →
        cfg.num_envs.fmod cfg.device_count = 0 →
        num_prefill_env_steps cfg ≤ cfg.num_timesteps →
        startupChecks cfg = Except.ok ()) := by
  constructor
  · rintro (h | h)
    · exact ⟨_, by rw [startupChecks, if_pos h]⟩
    · unfold startupChecks
      split_ifs <;> exact ⟨_, rfl⟩
  · intro h1 h2 h3
    unfold startupChecks
    rw [if_neg (not_le.mpr h1), if_neg (by omega), if_neg (not_not.mpr h2)]

/-- Witness for `C7_startup_validation`: the default configuration passes
both checks; shrinking the timestep budget below `min_replay_size` makes
startup fail. -/
theorem C7_startup_witness :
    (∃ e, startupChecks badBudgetCfg = Except.error e)
    ∧ startupChecks defaultsCfg = Except.ok () :=
  ⟨(C7_startup_validation badBudgetCfg).1 (Or.inl (by decide)),
    (C7_startup_validation defaultsCfg).2 (by decide) (by decide) (by decide)⟩

lemma sum_map_zero (l : List ℚ) : (l.map (fun _ => (0:ℚ))).sum = 0 := by
  induction l with
  | nil => simp
  | cons x xs ih => simp [ih]

lemma sum_flatten_eq_sum_map (l : List (List ℚ)) :
    (l.flatten.map (fun e => e * e)).sum
      = (l.map (fun r => (r.map (fun e => e * e)).sum)).sum := by
  induction l with
  | nil => simp
  | cons x xs ih =>
    simp only [List.flatten_cons, List.map_append, List.sum_append, List.map_cons,
      List.sum_cons, ih]

/-- **C4**: in the per-key critic loss a transition with truncation flag 1
contributes exactly 0 to the mean-squared TD error, for every network, every
parameter set, every reward and discount; the loss is half the mean of the
per-transition contributions; and the otherwise identical transition with
truncation flag 0 has a nonzero contribution under `zeroNets` with reward 1. -/
theorem C4_truncation_masking :
    (∀ (nets : SacNets) (qp pp np tqp alpha rs disc : ℚ) (t : TransitionRow)
        (r key : ℚ), t.truncation = 1 →
      criticRowContribution nets qp pp np tqp alpha rs disc t r key = 0)
    ∧ (∀ (nets : SacNets) (qp pp np tqp alpha rs disc : ℚ)
        (transitions : List TransitionRow) (reward : List ℚ) (key : ℚ),
      _critic_loss nets qp pp np tqp alpha rs disc transitions reward key
        = 1/2 * (((transitions.zip reward).map (fun p =>
            criticRowContribution nets qp pp np tqp alpha rs disc p.1 p.2 key)).sum
          / (((transitions.zip reward).map (fun p =>
              criticQError nets qp pp np tqp alpha rs disc p.1 p.2 key)).flatten.length)))
    ∧ criticRowContribution zeroNets 0 0 0 0 0 1 1 untruncatedRow 1 0 ≠ 0
    ∧ untruncatedRow = { truncatedRow with truncation := 0 }
    ∧ truncatedRow.truncation = 1 := by
  refine ⟨?_, ?_, ?_, rfl, rfl⟩
  · intro nets qp pp np tqp alpha rs disc t r key h
    simp only [criticRowContribution, criticQError, h]
    have : (1:ℚ) - 1 = 0 := by norm_num
    rw [this]
    simp only [mul_zero, zero_mul, List.map_map]
    rw [show ((fun e => e * e) ∘ fun q => (0:ℚ)) = (fun _ => (0:ℚ)) by funext x; simp]
    exact sum_map_zero _
  · intro nets qp pp np tqp alpha rs disc transitions reward key
    simp only [_critic_loss, listMean, criticRowContribution]
    rw [sum_flatten_eq_sum_map, List.map_map]
    simp only [Function.comp_def, List.length_map]
  · norm_num [criticRowContribution, criticQError, zeroNets, untruncatedRow,
      truncatedRow, listMin]

/-- Witness for `C4_truncation_masking`: the truncated demo row contributes
exactly 0 under `zeroNets` even with reward 1. -/
theorem C4_truncation_masking_witness :
    criticRowContribution zeroNets 0 0 0 0 0 1 1 truncatedRow 1 0 = 0 :=
  C4_truncation_masking.1 zeroNets 0 0 0 0 0 1 1 truncatedRow 1 0 rfl

lemma sum_map_sub_const {α : Type} (l : List α) (f : α → ℚ) (c : ℚ) :
    (l.map (fun x => f x - c)).sum = (l.map f).sum - l.length * c := by
  induction l with
  | nil => simp
  | cons x xs ih =>
    simp only [List.map_cons, List.sum_cons, List.length_cons, ih]
    push_cast
    ring

lemma listMean_map_sub_const {α : Type} (l : List α) (f : α → ℚ) (c : ℚ)
    (h : l ≠ []) :
    listMean (l.map (fun x => f x - c)) = listMean (l.map f) - c := by
  have hlen : ((l.length : ℚ)) ≠ 0 := by
    simpa using fun hc => h (List.length_eq_zero.mp hc)
  unfold listMean
  rw [sum_map_sub_const, List.length_map, List.length_map]
  field_simp

/-- **C6 counterexample**: on a two-transition batch the shared-policy loss
differs from the claimed mean of per-transition
`alpha * log_prob - (sum over keys of min sub-Q)`: the ravel-sum of
losses.py 140 totals over the batch dimension as well, so the sub-Q total
enters without the 1/batch factor. -/
theorem C6_policy_loss_counterexample :
    policy_loss qValNets 0 0 [("k", 1)] 0 [untruncatedRow, untruncatedRow] 0
      ≠ sharedPolicyLossSpec qValNets 0 0 [("k", 1)] 0
          [untruncatedRow, untruncatedRow] 0 := by
  norm_num [policy_loss, sharedPolicyLossSpec, ravelMinSubQ, qValNets, listMean, listMin]

/-- **C6 (amended)**: the shared-policy loss samples one action from the
shared policy and evaluates every sub-Q network at it (the sub-policy
parameters are not even arguments of the loss); the per-key
min-over-ensemble values are summed without the configured per-key weights,
but across keys *and* batch entries; the returned value is the mean of
`alpha * log_prob` minus that unweighted total.  On singleton batches this
coincides with the claimed per-transition form, and applying a nontrivial
per-key weight changes the value. -/
theorem C6_policy_loss_characterization :
    (∀ (nets : SacNets) (pp np : ℚ) (subq : List (String × ℚ)) (alpha : ℚ)
        (t : TransitionRow) (key : ℚ),
      policy_loss nets pp np subq alpha [t] key
        = sharedPolicyLossSpec nets pp np subq alpha [t] key)
    ∧ (∀ (nets : SacNets) (pp np : ℚ) (subq : List (String × ℚ)) (alpha : ℚ)
        (trs : List TransitionRow) (key : ℚ), trs ≠ [] →
      policy_loss nets pp np subq alpha trs key
        = listMean (trs.map (fun t =>
            alpha * nets.logProb (nets.policyApply np pp t.observation)
              (nets.sample (nets.policyApply np pp t.observation) key)))
          - ravelMinSubQ nets pp np subq trs key)
    ∧ sharedPolicyLossWeighted (fun _ => 2) qValNets 0 0 [("k", 1)] 0
          [untruncatedRow] 0
        ≠ policy_loss qValNets 0 0 [("k", 1)] 0 [untruncatedRow] 0 := by
  refine ⟨?_, ?_, ?_⟩
  · intro nets pp np subq alpha t key
    simp [policy_loss, sharedPolicyLossSpec, ravelMinSubQ, listMean]
  · intro nets pp np subq alpha trs key h
    exact listMean_map_sub_const trs _ _ h
  · norm_num [sharedPolicyLossWeighted, policy_loss, ravelMinSubQ, qValNets,
      listMean, listMin]

/-- Witness for `C6_policy_loss_characterization` on a concrete nonempty
batch: the loss equals the mean entropy term minus the ravel total. -/
theorem C6_policy_loss_witness :
    policy_loss qValNets 0 0 [("k", 1)] 0 [untruncatedRow] 0
      = listMean ([untruncatedRow].map (fun t =>
          (0:ℚ) * qValNets.logProb (qValNets.policyApply 0 0 t.observation)
            (qValNets.sample (qValNets.policyApply 0 0 t.observation) 0)))
        - ravelMinSubQ qValNets 0 0 [("k", 1)] [untruncatedRow] 0 :=
  C6_policy_loss_characterization.2.1 qValNets 0 0 [("k", 1)] 0
    [untruncatedRow] 0 (by simp)

/-- **C1 counterexample**: a concrete step in which the sub-Q parameters
change (their leaf moves from 0 to 1) yet the shared-policy update output
stored by `sgd_step` equals the one computed from the *previous* step's
sub-Q parameters (leaf total 0) and differs from the one the
already-updated sub-Q parameters would give (leaf total 1): train.py 258
passes `training_state.sub_q_params`, not the `sub_q_params` rebound at
train.py 238. -/
theorem C1_policy_update_counterexample :
    (sgd_step probeUpdates 0 (probeState, 0) 0).1.1.policy_params = 0
    ∧ (sgd_step probeUpdates 0 (probeState, 0) 0).1.1.sub_q_params = [("k", [1])]
    ∧ (probeUpdates.policy_update probeState.policy_params
        probeState.normalizer_params
        (sgd_step probeUpdates 0 (probeState, 0) 0).1.1.sub_q_params
        (probeUpdates.expFn probeState.alpha_params) 0 0
        probeState.policy_optimizer_state).2.1 = 1
    ∧ (0 : ℚ) ≠ 1 := by
  refine ⟨?_, ?_, ?_, by norm_num⟩
  · norm_num [sgd_step, probeUpdates, probeState, subTreeTotal]
  · norm_num [sgd_step, probeUpdates, probeState]
  · norm_num [sgd_step, probeUpdates, probeState, subTreeTotal]

/-- **C1 (amended)**: one `sgd_step` applies the four updates in the fixed
order temperature, sub-critics, sub-policies, shared policy (they consume
the 2nd, 3rd, 4th and 5th keys of the split, in that order), but every
update reads the carried pre-step state: the entropy coefficient is `exp`
of the old `alpha_params`, and both the sub-policy and the shared-policy
updates receive the *previous* step's sub-Q parameters; the freshly updated
sub-Q parameters feed only the Polyak target update and the stored state.
The gradient-step counter increments by one. -/
theorem C1_sgd_step_dataflow (u : SgdUpdates) (tau : ℚ)
    (ts : TrainingStateM) (key transitions : ℚ) :
    (sgd_step u tau (ts, key) transitions).1.1.alpha_params
        = (u.alpha_update ts.alpha_params ts.policy_params ts.normalizer_params
            transitions (u.split5 key).2.1 ts.alpha_optimizer_state).2.1
    ∧ (sgd_step u tau (ts, key) transitions).1.1.sub_q_params
        = (u.sub_q_update ts.sub_q_params ts.sub_policy_params
            ts.normalizer_params ts.sub_target_q_params (u.expFn ts.alpha_params)
            transitions (u.split5 key).2.2.1 ts.sub_q_optimizer_state).2.1
    ∧ (sgd_step u tau (ts, key) transitions).1.1.sub_policy_params
        = (u.sub_policy_update ts.sub_policy_params ts.normalizer_params
            ts.sub_q_params (u.expFn ts.alpha_params) transitions
            (u.split5 key).2.2.2.1 ts.sub_policy_optimizer_state).2.1
    ∧ (sgd_step u tau (ts, key) transitions).1.1.policy_params
        = (u.policy_update ts.policy_params ts.normalizer_params ts.sub_q_params
            (u.expFn ts.alpha_params) transitions (u.split5 key).2.2.2.2
            ts.policy_optimizer_state).2.1
    ∧ (sgd_step u tau (ts, key) transitions).1.1.sub_target_q_params
        = treePolyak tau ts.sub_target_q_params
            (u.sub_q_update ts.sub_q_params ts.sub_policy_params
              ts.normalizer_params ts.sub_target_q_params (u.expFn ts.alpha_params)
              transitions (u.split5 key).2.2.1 ts.sub_q_optimizer_state).2.1
    ∧ (sgd_step u tau (ts, key) transitions).1.1.gradient_steps
        = ts.gradient_steps + 1 :=
  ⟨rfl, rfl, rfl, rfl, rfl, rfl⟩

lemma polyakIter_le (tau q t : ℚ) (_h0 : 0 ≤ tau) (h1 : tau ≤ 1) (ht : t ≤ q)
    (n : ℕ) : (fun x => polyakLeaf tau x q)^[n] t ≤ q := by
  induction n with
  | zero => simpa using ht
  | succ k ih =>
    rw [Function.iterate_succ_apply']
    set y := (fun x => polyakLeaf tau x q)^[k] t with hy
    show polyakLeaf tau y q ≤ q
    simp only [polyakLeaf]
    nlinarith [ih]

/-- **C5**: the target update of `sgd_step` is the Polyak average
`target * (1-tau) + new_sub_q * tau` over every key and leaf of the sub-Q
tree, computed from the freshly updated sub-Q parameters after the four
gradient updates; with targets 0, sub-Q 1 and `tau = 1/10` one update gives
exactly 1/10 on every leaf; and for `0 < tau < 1` and a constant sub-Q
leaf value `q ≥ t`, iterating the leaf update is monotone nondecreasing,
never exceeds `q`, and contracts the gap to `q` by the factor `1 - tau`
each step. -/
theorem C5_polyak_target_update :
    (∀ (u : SgdUpdates) (tau : ℚ) (ts : TrainingStateM) (key transitions : ℚ),
      (sgd_step u tau (ts, key) transitions).1.1.sub_target_q_params
        = treePolyak tau ts.sub_target_q_params
            (u.sub_q_update ts.sub_q_params ts.sub_policy_params
              ts.normalizer_params ts.sub_target_q_params (u.expFn ts.alpha_params)
              transitions (u.split5 key).2.2.1 ts.sub_q_optimizer_state).2.1)
    ∧ treePolyak (1/10) [("k", [0, 0])] [("k", [1, 1])] = [("k", [1/10, 1/10])]
    ∧ (∀ (tau q t : ℚ), 0 < tau → tau < 1 → t ≤ q → ∀ n : ℕ,
        (fun x => polyakLeaf tau x q)^[n] t ≤ (fun x => polyakLeaf tau x q)^[n + 1] t
        ∧ (fun x => polyakLeaf tau x q)^[n] t ≤ q
        ∧ q - (fun x => polyakLeaf tau x q)^[n + 1] t
            = (1 - tau) * (q - (fun x => polyakLeaf tau x q)^[n] t)) := by
  refine ⟨fun u tau ts key transitions => rfl, ?_, ?_⟩
  · norm_num [treePolyak, polyakLeaf]
  · intro tau q t h0 h1 ht n
    have hle := polyakIter_le tau q t h0.le h1.le ht n
    refine ⟨?_, hle, ?_⟩
    · rw [Function.iterate_succ_apply']
      set y := (fun x => polyakLeaf tau x q)^[n] t with hy
      show y ≤ polyakLeaf tau y q
      simp only [polyakLeaf]
      nlinarith [hle]
    · rw [Function.iterate_succ_apply']
      set y := (fun x => polyakLeaf tau x q)^[n] t with hy
      show q - polyakLeaf tau y q = (1 - tau) * (q - y)
      simp only [polyakLeaf]
      ring

/-- Witness for `C5_polyak_target_update` at `tau = 1/10`, constant sub-Q
leaf 1, initial target 0, first step. -/
theorem C5_polyak_witness :
    (fun x => polyakLeaf (1/10) x 1)^[0] 0 ≤ (fun x => polyakLeaf (1/10) x 1)^[0 + 1] 0
    ∧ (fun x => polyakLeaf (1/10) x 1)^[0] 0 ≤ 1
    ∧ 1 - (fun x => polyakLeaf (1/10) x 1)^[0 + 1] 0
        = (1 - 1/10) * (1 - (fun x => polyakLeaf (1/10) x 1)^[0] 0) :=
  C5_polyak_target_update.2.2 (1/10) 1 0 (by norm_num) (by norm_num) (by norm_num) 0

lemma pyDictGet_append (a b : PyDict) (k : String) :
    pyDictGet (a ++ b) k
      = if (pyDictGet b k).isSome then pyDictGet b k else pyDictGet a k := by
  unfold pyDictGet
  rw [List.reverse_append, List.find?_append]
  rcases h : b.reverse.find? (fun p => p.1 == k) with _ | p
  · simp [h]
  · simp [h]

lemma generate_unroll_length {S T : Type} (step : S → S × T) (s0 : S) (n : ℕ) :
    (generate_unroll step s0 n).2.length = n := by
  induction n generalizing s0 with
  | zero => rfl
  | succ k ih => simp [generate_unroll, ih]

/-- **C8 counterexample**: `'eval/walltime'` is written *before*
`**training_metrics` in the merged dict literal (acting.py 133-137), so a
`training_metrics` entry for that key overrides the eval value: with
training metrics `{'eval/walltime': 42}` and eval wall-time `0 + 1`, the
returned mapping carries 42, not the eval value — the eval side does not
take precedence for every colliding key. -/
theorem C8_walltime_counterexample :
    pyDictGet (run_evaluation 1 0 wtOutcome [("eval/walltime", 42)])
        "eval/walltime" = some 42
    ∧ pyDictGet (run_evaluation 1 0 wtOutcome [("eval/walltime", 42)])
        "eval/walltime" ≠ some ((0:ℚ) + wtOutcome.epochEvalTime) := by
  have h42 : pyDictGet (run_evaluation 1 0 wtOutcome [("eval/walltime", 42)])
      "eval/walltime" = some 42 := rfl
  refine ⟨h42, fun h => ?_⟩
  rw [h42] at h
  have h2 := Option.some.inj h
  norm_num [wtOutcome] at h2

/-- **C8 (amended)**: `run_evaluation` unrolls the frozen policy for exactly
`episode_length // action_repeat` steps and returns one flat mapping in
which every key of the computed eval-metrics dict (`eval/episode_*`,
`eval/avg_episode_length`, `eval/epoch_eval_time`, `eval/sps`) takes
precedence over a colliding training-metrics key; the remaining eval key
`eval/walltime` is written before the training metrics, so it holds the
accumulated eval wall-time only when the training metrics do not also bind
it. -/
theorem C8_run_evaluation_characterization :
    (∀ (S T : Type) (step : S → S × T) (s0 : S) (el ar : ℕ),
      (generate_unroll step s0 (eval_unroll_length el ar)).2.length = el / ar)
    ∧ (∀ (steps w : ℚ) (r : EvalOutcome) (tm : PyDict) (k : String),
        (pyDictGet (evalMetricsDict steps r) k).isSome →
        pyDictGet (run_evaluation steps w r tm) k
          = pyDictGet (evalMetricsDict steps r) k)
    ∧ (∀ (steps w : ℚ) (r : EvalOutcome) (tm : PyDict),
        pyDictGet tm "eval/walltime" = none →
        pyDictGet (evalMetricsDict steps r) "eval/walltime" = none →
        pyDictGet (run_evaluation steps w r tm) "eval/walltime"
          = some (w + r.epochEvalTime)) := by
  refine ⟨fun S T step s0 el ar => generate_unroll_length step s0 _, ?_, ?_⟩
  · intro steps w r tm k h
    rw [run_evaluation, pyDictGet_append, if_pos h]
  · intro steps w r tm h1 h2
    rw [run_evaluation, pyDictGet_append, h2]
    simp only [Option.isSome_none, Bool.false_eq_true, if_false]
    rw [pyDictGet_append, h1]
    simp [pyDictGet]

/-- Witness for `C8_run_evaluation_characterization`: a colliding
`eval/sps` training key is overridden by the eval value, and with no
colliding walltime key the returned `eval/walltime` is the accumulated eval
wall-time. -/
theorem C8_run_evaluation_witness :
    pyDictGet (run_evaluation 2 0 wtOutcome [("eval/sps", 99)]) "eval/sps"
      = pyDictGet (evalMetricsDict 2 wtOutcome) "eval/sps"
    ∧ pyDictGet (run_evaluation 2 0 wtOutcome [("training/loss", 7)])
        "eval/walltime" = some ((0:ℚ) + wtOutcome.epochEvalTime) :=
  ⟨C8_run_evaluation_characterization.2.1 2 0 wtOutcome [("eval/sps", 99)]
      "eval/sps" rfl,
    C8_run_evaluation_characterization.2.2 2 0 wtOutcome [("training/loss", 7)]
      rfl rfl⟩

/-- **C9**: both `TrainingState(...)` constructions in train.py omit the
required fields `sub_alpha_params` and `sub_alpha_optimizer_state`
(declared without defaults at util/types.py 33-34), so each raises a
missing-argument `TypeError` for every input; in particular `train` cannot
produce an initial training state (train.py 404 calls
`_init_training_state`). -/
theorem C9_training_state_construction_fails :
    dataclassCallOk initTrainingStateKwargs = false
    ∧ dataclassCallOk sgdStepTrainingStateKwargs = false
    ∧ TSField.sub_alpha_params ∉ initTrainingStateKwargs
    ∧ TSField.sub_alpha_optimizer_state ∉ initTrainingStateKwargs
    ∧ TSField.sub_alpha_params ∉ sgdStepTrainingStateKwargs
    ∧ TSField.sub_alpha_optimizer_state ∉ sgdStepTrainingStateKwargs
    ∧ TSField.sub_alpha_params ∈ trainingStateFields
    ∧ TSField.sub_alpha_optimizer_state ∈ trainingStateFields := by
  decide

/-- **C10**: the evaluation path fails to bind its calls for every input:
`train` hands `Evaluator.__init__` the unexpected keyword `reward_dict`
(train.py 436 vs acting.py 82-85), and `generate_unroll` calls `actor_step`
without its required `reward_dict` parameter (acting.py 69-70 vs 30-37);
both raise a `TypeError`, so no evaluation metrics are produced.  Dropping
the extra keyword, or supplying the missing one, would make the same calls
bind. -/
theorem C10_evaluation_path_binding_fails :
    bindCall evaluatorInitSig 2 evaluatorCallKwargs = false
    ∧ bindCall actorStepSig 4 generateUnrollActorStepKwargs = false
    ∧ "reward_dict" ∉ evaluatorInitSig.params
    ∧ "reward_dict" ∈ actorStepSig.params
    ∧ "reward_dict" ∉ actorStepSig.defaults
    ∧ bindCall evaluatorInitSig 2
        ["num_eval_envs", "episode_length", "action_repeat", "key"] = true
    ∧ bindCall actorStepSig 4 ["reward_dict", "extra_fields"] = true := by
  decide
